import Mathlib

/-
Verification of the server-lifecycle orchestration layer (aiohttp_wsgi/api.py).

The embedding is a shallow, trace-based model of the module:
pure helpers (format_path, the static-item parsing) are Lean functions;
the effectful routines (Server.close, the background shutdown task,
Server.request, start_server) are state-passing functions that also emit
the ordered list of side effects (events / steps) they perform, so that
ordering and once-only claims become statements about those lists.
Durations (shutdown_timeout, a float in the source) are modelled as Nat,
an abstract duration token; the claims only pass it around.
-/

/-- Modelled from the spec: a raw bound-socket address, as returned by
socket.getsockname().  The Address Resolver (parse_sockname, defined in
aiohttp_wsgi/utils.py which is not part of the visible source) distinguishes
a filesystem-domain (unix) address, a bare path, from a network address,
a host/port pair. -/
inductive SockAddr where
  | unix (path : String)
  | tcp (host : String) (port : Nat)
deriving DecidableEq, Repr

/-- Modelled from the spec: parse_sockname (the Address Resolver,
aiohttp_wsgi/utils.py, not under the visible source).  Spec 4.1: if the raw
address is a filesystem-domain socket address the kind is "unix" and the
address is the filesystem path; otherwise the kind is the network host
component and the address is the port number. -/
def parse_sockname : SockAddr → String × String
  | SockAddr.unix path => ("unix", path)
  | SockAddr.tcp host port => (host, toString port)

/-- The lazily created outbound connector of the embedded client
(aiohttp.UnixConnector / aiohttp.TCPConnector in the source). -/
inductive Connector where
  | unixConnector (path : String)
  | tcpConnector
deriving DecidableEq, Repr

/-- One step of the background shutdown task Server._wait_closed
(api.py lines 26-30); a trace lists the steps that ran to completion. -/
inductive Step where
  | serverWaitClosed
  | hook (i : Nat)
  | finishConnections (timeout : Nat)
  | cleanup
deriving DecidableEq, Repr

deriving instance DecidableEq for Except

/-- The outcomes of the awaited collaborators of Server._wait_closed:
the listener close, each registered shutdown hook (app.on_shutdown, run in
registration order by app.shutdown()), the connection drain
(handler.finish_connections) and the final cleanup (app.cleanup()).
Each either returns or raises (Except.error carries the exception). -/
structure ShutdownEnv where
  server_wait_closed : Except String Unit
  hooks : List (Except String Unit)
  finish_connections : Except String Unit
  cleanup : Except String Unit
deriving DecidableEq, Repr

/-- Run the registered shutdown hooks in registration order, numbering them
from i; stops at the first hook that raises.  Returns the trace of hooks
that completed and the overall outcome (app.shutdown() in the source). -/
def runHooks (i : Nat) : List (Except String Unit) → List Step × Except String Unit
  | [] => ([], Except.ok ())
  | r :: rest =>
    match r with
    | Except.error e => ([], Except.error e)
    | Except.ok _ =>
      let res := runHooks (i + 1) rest
      (Step.hook i :: res.1, res.2)

/-- Server._wait_closed (api.py lines 26-30): await the listener finishing
closing, then run the shutdown hooks, then drain in-flight connections
bounded by the configured shutdown timeout, then run final application
cleanup.  Sequential awaits: an exception at any step stops the sequence.
Returns the trace of completed steps and the task outcome. -/
def waitClosedTask (timeout : Nat) (env : ShutdownEnv) : List Step × Except String Unit :=
  match env.server_wait_closed with
  | Except.error e => ([], Except.error e)
  | Except.ok _ =>
    let h := runHooks 0 env.hooks
    match h.2 with
    | Except.error e => (Step.serverWaitClosed :: h.1, Except.error e)
    | Except.ok _ =>
      match env.finish_connections with
      | Except.error e => (Step.serverWaitClosed :: h.1, Except.error e)
      | Except.ok _ =>
        match env.cleanup with
        | Except.error e =>
          (Step.serverWaitClosed :: h.1 ++ [Step.finishConnections timeout], Except.error e)
        | Except.ok _ =>
          (Step.serverWaitClosed :: h.1 ++ [Step.finishConnections timeout, Step.cleanup],
           Except.ok ())

/-- The Server object of api.py (lines 10-68).  close_future is
self._close_future: none until close() runs, afterwards the scheduled
background task, recorded with its trace and outcome.  session and
connector are the embedded client's lazily created _session and
_connector.  env carries the behaviour of the awaited collaborators of the
background shutdown task. -/
structure Server where
  shutdown_timeout : Nat
  sockets : List SockAddr
  session : Bool
  connector : Option Connector
  close_future : Option (List Step × Except String Unit)
  env : ShutdownEnv
deriving DecidableEq, Repr

/-- A synchronous side effect of Server.close (api.py lines 32-46). -/
inductive Event where
  | sessionClose
  | connectorClose
  | unlink (path : String)
  | serverClose
  | createTask
deriving DecidableEq, Repr

/-- The unlink loop of Server.close (api.py lines 40-43): for every bound
socket whose parsed sockname has host "unix", remove the filesystem path. -/
def unlinkEvents (sockets : List SockAddr) : List Event :=
  sockets.filterMap (fun sock =>
    let hp := parse_sockname sock
    if hp.1 = "unix" then some (Event.unlink hp.2) else none)

/-- Server.close (api.py lines 32-46).  If _close_future is already set the
call does nothing.  Otherwise, in order: close the client session if
created, close the connector if created, unlink every unix socket path,
close the listener, and schedule the background shutdown task (create_task
on _wait_closed), storing it in _close_future.  Returns the new state and
the ordered list of side effects performed. -/
def Server.close (s : Server) : Server × List Event :=
  match s.close_future with
  | some _ => (s, [])
  | none =>
    let sessionEv := if s.session then [Event.sessionClose] else []
    let connectorEv := if s.connector.isSome then [Event.connectorClose] else []
    let task := waitClosedTask s.shutdown_timeout s.env
    ({ s with close_future := some task },
     sessionEv ++ connectorEv ++ unlinkEvents s.sockets
       ++ [Event.serverClose, Event.createTask])

/-- Iterated Server.close: call close() n times in sequence, concatenating
the side effects of the calls. -/
def closeN : Nat → Server → Server × List Event
  | 0, s => (s, [])
  | n + 1, s =>
    let r1 := Server.close s
    let r2 := closeN n r1.1
    (r2.1, r1.2 ++ r2.2)

/-- The observation of a caller of Server.wait_closed (api.py lines 48-49):
awaiting asyncio.shield(self._close_future).  When _close_future is still
None (close() not yet called), asyncio.shield raises TypeError; otherwise
the caller observes the stored task's outcome. -/
inductive WaitResult where
  | typeErrorNoneFuture
  | outcome (r : Except String Unit)
deriving DecidableEq, Repr

/-- Server.wait_closed (api.py lines 48-49): await
asyncio.shield(self._close_future).  Pure observation of the one stored
task; it performs no teardown of its own. -/
def Server.wait_closed (s : Server) : WaitResult :=
  match s.close_future with
  | none => WaitResult.typeErrorNoneFuture
  | some f => WaitResult.outcome f.2

/-- Server.request (api.py lines 58-68): parse the sockname of the first
bound socket; lazily create the connector (unix connector on the socket
path when the parsed host is "unix", else a TCP connector) and the client
session, each only when not already created; build the request URI
"http://" ++ host ++ ":" ++ port ++ path and issue the request through the
session.  Returns none when the server has no bound socket (sockets[0]
raises IndexError); otherwise the updated server, the connector used and
the URI requested. -/
def Server.request (s : Server) (method path : String) :
    Option (Server × Connector × String) :=
  match s.sockets with
  | [] => none
  | sock0 :: _ =>
    let hp := parse_sockname sock0
    let connector :=
      match s.connector with
      | some c => c
      | none =>
        if hp.1 = "unix" then Connector.unixConnector hp.2 else Connector.tcpConnector
    let uri := "http://" ++ hp.1 ++ ":" ++ hp.2 ++ path
    some ({ s with connector := some connector, session := true }, connector, uri)

/-- Python str.endswith, by characters: the suffix's characters are a
suffix of the string's characters. -/
def strEndsWith (s t : String) : Bool :=
  t.data.isSuffixOf s.data

/-- Python str.startswith, by characters: the given characters are a
front segment of the string's characters. -/
def strStartsWith (s t : String) : Bool :=
  t.data.isPrefixOf s.data

/-- Python membership test c in s, by characters. -/
def strContainsChar (s : String) (c : Char) : Bool :=
  s.data.contains c

/-- format_path (api.py lines 71-76).  assert not path.endswith("/");
the empty path becomes "/"; assert path.startswith("/"); return path.
A failed assert is Except.error carrying the assertion message. -/
def format_path (path : String) : Except String String :=
  if strEndsWith path "/" then
    Except.error (path ++ " name should not end with /")
  else
    let path1 := if path = "" then "/" else path
    if strStartsWith path1 "/" then
      Except.ok path1
    else
      Except.error (path1 ++ " name should start with /")

/-- A static-mount descriptor as accepted by start_server: either the
string form "path=directory" or an already split pair. -/
inductive StaticItem where
  | str (s : String)
  | pair (path : String) (dirname : String)
deriving DecidableEq, Repr

/-- Split a character list at the first occurrence of the separator
character; none when the separator does not occur. -/
def splitFirstChar (c : Char) : List Char → Option (List Char × List Char)
  | [] => none
  | x :: rest =>
    if x = c then some ([], rest)
    else
      match splitFirstChar c rest with
      | none => none
      | some (a, b) => some (x :: a, b)

/-- Python str.split("=", 1): the part before the first "=" and the rest
of the string after it (later "=" characters stay in the second part). -/
def splitOnceEq (s : String) : String × String :=
  match splitFirstChar (Char.ofNat 61) s.data with
  | none => (s, "")
  | some (a, b) => (String.mk a, String.mk b)

/-- A registration made on the dispatch table while start_server builds it
(api.py lines 108-127), in the order the source performs them. -/
inductive RegEvent where
  | addRoute (method : String) (path : String) (handler : Nat)
  | addStaticResource (pattern : String) (rawPrefix : String) (dirname : String)
  | onShutdownAppend (callback : Nat)
  | addWsgiRoute (method : String) (pattern : String)
deriving DecidableEq, Repr

/-- Registration of one static mount (api.py lines 112-118), given the
already split path and directory: add a resource on the pattern
format_path(path) ++ "/\x7bfilename:.*\x7d" serving files of the directory
under the raw prefix path ++ "/". -/
def staticPairEvents (path dirname : String) : Except String (List RegEvent) :=
  match format_path path with
  | Except.error e => Except.error e
  | Except.ok fp =>
    Except.ok [RegEvent.addStaticResource (fp ++ "/\x7bfilename:.*\x7d")
                 (path ++ "/") dirname]

/-- Registration of one static descriptor (api.py lines 112-118): the
string form must contain "=" (assert) and is split at the first "=". -/
def staticEvents (item : StaticItem) : Except String (List RegEvent) :=
  match item with
  | StaticItem.str s =>
    if strContainsChar s (Char.ofNat 61) then
      staticPairEvents (splitOnceEq s).1 (splitOnceEq s).2
    else
      Except.error "should have format path=directory"
  | StaticItem.pair p d => staticPairEvents p d

/-- The static-mount loop of start_server, in input order; the first
failing descriptor aborts start_server. -/
def staticAll : List StaticItem → Except String (List RegEvent)
  | [] => Except.ok []
  | i :: rest =>
    match staticEvents i with
    | Except.error e => Except.error e
    | Except.ok evs =>
      match staticAll rest with
      | Except.error e => Except.error e
      | Except.ok more => Except.ok (evs ++ more)

/-- The dispatch-table construction of start_server (api.py lines
108-127): explicit routes in input order, then static mounts in input
order, then the on_finish hooks appended to app.on_shutdown in order, and
last the WSGI application on the wildcard pattern
format_path(script_name) ++ "\x7bpath_info:.*\x7d" for every method. -/
def registerAll (routes : List (String × String × Nat)) (static : List StaticItem)
    (on_finish : List Nat) (script_name : String) : Except String (List RegEvent) :=
  match staticAll static with
  | Except.error e => Except.error e
  | Except.ok se =>
    match format_path script_name with
    | Except.error e => Except.error e
    | Except.ok sn =>
      Except.ok
        (routes.map (fun r => RegEvent.addRoute r.1 r.2.1 r.2.2)
          ++ se
          ++ on_finish.map RegEvent.onShutdownAppend
          ++ [RegEvent.addWsgiRoute "*" (sn ++ "\x7bpath_info:.*\x7d")])

/-- The configuration surface of start_server (api.py lines 79-103).
Defaults in the source: port 8080, unix_socket_perms 0o600, backlog 1024,
script_name "".  Handlers and callbacks are opaque references. -/
structure StartConfig where
  host : Option String
  port : Nat
  unix_socket : Option String
  unix_socket_perms : Nat
  socket : Option Nat
  backlog : Nat
  routes : List (String × String × Nat)
  static : List StaticItem
  on_finish : List Nat
  script_name : String
deriving DecidableEq, Repr

/-- A socket-binding side effect of start_server (api.py lines 129-154). -/
inductive BindEvent where
  | createUnixServer (path : String) (backlog : Nat)
  | createServerSock (sock : Nat) (backlog : Nat)
  | createServerHost (host : Option String) (port : Nat) (backlog : Nat)
  | chmod (path : String) (perms : Nat)
deriving DecidableEq, Repr

/-- Whether a BindEvent opens a listener (as opposed to the chmod step). -/
def isBindEvent : BindEvent → Bool
  | BindEvent.chmod _ _ => false
  | _ => true

/-- The binding part of start_server (api.py lines 129-154): if
unix_socket is given, create_unix_server on that path; elif a socket
handle is given, create_server on that handle; else create_server on
host/port.  Afterwards, as a separate step, chmod the unix socket path
when unix_socket was given. -/
def bindEvents (cfg : StartConfig) : List BindEvent :=
  (match cfg.unix_socket, cfg.socket with
   | some p, _ => [BindEvent.createUnixServer p cfg.backlog]
   | none, some sk => [BindEvent.createServerSock sk cfg.backlog]
   | none, none => [BindEvent.createServerHost cfg.host cfg.port cfg.backlog])
  ++ (match cfg.unix_socket with
      | some p => [BindEvent.chmod p cfg.unix_socket_perms]
      | none => [])

/-- start_server (api.py lines 79-156): build the dispatch table (the
asserts there are the only failure points before binding), then perform
the socket binding.  Returns the registrations and the binding events. -/
def start_server (cfg : StartConfig) : Except String (List RegEvent × List BindEvent) :=
  match registerAll cfg.routes cfg.static cfg.on_finish cfg.script_name with
  | Except.error e => Except.error e
  | Except.ok regs => Except.ok (regs, bindEvents cfg)

/-- A freshly started server bound to one TCP socket: close() not yet
called, embedded client not yet used, all teardown collaborators well
behaved. -/
def freshServer : Server :=
  ⟨60, [SockAddr.tcp "127.0.0.1" 8080], false, none, none,
   ⟨Except.ok (), [], Except.ok (), Except.ok ()⟩⟩

/-- A freshly started server bound to a unix socket, with the embedded
client and both teardown hooks registered; used to instantiate theorems. -/
def unixServer : Server :=
  ⟨60, [SockAddr.unix "/tmp/server.sock", SockAddr.tcp "h" 80], true,
   some Connector.tcpConnector, none,
   ⟨Except.ok (), [Except.ok (), Except.ok ()], Except.ok (), Except.ok ()⟩⟩

/-- A configuration that supplies all three binding options at once. -/
def cfgBoth : StartConfig :=
  ⟨some "127.0.0.1", 8080, some "/tmp/server.sock", 384, some 3, 1024, [], [], [], ""⟩

/-- Whether an assert in format_path fired. -/
def isErr (r : Except String String) : Bool :=
  match r with
  | Except.error _ => true
  | Except.ok _ => false

/-- The shutdown collaborators with one well-behaved hook followed by one
failing hook; used to instantiate the hook-failure theorems. -/
def envBoom : ShutdownEnv :=
  ⟨Except.ok (), [Except.ok (), Except.error "boom"], Except.ok (), Except.ok ()⟩

/-- A server whose close() has already stored the background task produced
by envBoom. -/
def closedBoomServer : Server :=
  ⟨60, [], false, none, some (waitClosedTask 60 envBoom), envBoom⟩

/-- A freshly started server bound to one unix socket with the embedded
client not yet used; used to instantiate the embedded-client theorems. -/
def clientServer : Server :=
  ⟨60, [SockAddr.unix "/tmp/server.sock"], false, none, none,
   ⟨Except.ok (), [], Except.ok (), Except.ok ()⟩⟩

/-- A configuration binding only a unix socket. -/
def cfgUnix : StartConfig :=
  ⟨none, 8080, some "/tmp/u.sock", 384, none, 1024, [], [], [], ""⟩

/-- A configuration adopting only a caller-supplied socket handle. -/
def cfgSockOnly : StartConfig :=
  ⟨none, 8080, none, 384, some 3, 1024, [], [], [], ""⟩

/-- A configuration binding only host/port. -/
def cfgHostOnly : StartConfig :=
  ⟨some "0.0.0.0", 8080, none, 384, none, 1024, [], [], [], ""⟩

theorem hookSteps_shift (i n : Nat) :
    (List.range (n + 1)).map (fun j => Step.hook (i + j))
      = Step.hook i :: (List.range n).map (fun j => Step.hook (i + 1 + j)) := by
  rw [List.range_succ_eq_map, List.map_cons, List.map_map]
  simp only [Nat.add_zero]
  congr 1
  apply List.map_congr_left
  intro a _
  simp only [Function.comp_apply]
  congr 1
  omega

theorem runHooks_all_ok (hooks : List (Except String Unit))
    (h : ∀ r ∈ hooks, r = Except.ok ()) (i : Nat) :
    runHooks i hooks
      = ((List.range hooks.length).map (fun j => Step.hook (i + j)), Except.ok ()) := by
  induction hooks generalizing i with
  | nil => simp [runHooks]
  | cons r rest ih =>
    have hr : r = Except.ok () := h r (by simp)
    subst hr
    have hrest : ∀ x ∈ rest, x = Except.ok () := fun x hx => h x (by simp [hx])
    simp only [runHooks, ih hrest (i + 1), List.length_cons, hookSteps_shift]

theorem runHooks_fail (pre rest : List (Except String Unit)) (e : String)
    (hpre : ∀ r ∈ pre, r = Except.ok ()) (i : Nat) :
    runHooks i (pre ++ Except.error e :: rest)
      = ((List.range pre.length).map (fun j => Step.hook (i + j)), Except.error e) := by
  induction pre generalizing i with
  | nil => simp [runHooks]
  | cons r pre ih =>
    have hr : r = Except.ok () := hpre r (by simp)
    subst hr
    have h2 : ∀ x ∈ pre, x = Except.ok () := fun x hx => hpre x (by simp [hx])
    simp only [List.cons_append, runHooks, List.append_eq]
    rw [ih h2 (i + 1)]
    simp only [List.length_cons, hookSteps_shift]

theorem runHooks_all_ok_zero (hooks : List (Except String Unit))
    (h : ∀ r ∈ hooks, r = Except.ok ()) :
    runHooks 0 hooks = ((List.range hooks.length).map Step.hook, Except.ok ()) := by
  rw [runHooks_all_ok hooks h 0]
  congr 1
  apply List.map_congr_left
  intro a _
  simp

/-- Claim C6: mount-prefix normalization by format_path: the empty prefix
is normalized to "/"; "/api" (leading slash, no trailing slash) is
returned unchanged; "/api/" (trailing slash) fails the trailing-slash
assert; "api" (no leading slash) fails the leading-slash assert. -/
theorem c6_format_path_normalization :
    format_path "" = Except.ok "/" ∧
    format_path "/api" = Except.ok "/api" ∧
    format_path "/api/" = Except.error "/api/ name should not end with /" ∧
    format_path "api" = Except.error "api name should start with /" :=
  ⟨rfl, rfl, rfl, rfl⟩

/-- Claim C10: format_path fails exactly when its input ends with "/" or
is a non-empty string not starting with "/"; the single character "/" is
rejected (the trailing-slash assert fires before the empty-string
normalization) although "" is normalized to and returned as "/", so
format_path is not idempotent on its own output for the empty prefix. -/
theorem c10_format_path_failure_characterisation :
    (∀ path : String,
       isErr (format_path path) = true
         ↔ (strEndsWith path "/" = true ∨ (path ≠ "" ∧ strStartsWith path "/" = false))) ∧
    isErr (format_path "/") = true ∧
    format_path "" = Except.ok "/" ∧
    isErr ((format_path "").bind format_path) = true := by
  refine ⟨?_, rfl, rfl, rfl⟩
  intro path
  by_cases h1 : strEndsWith path "/"
  · simp [format_path, h1, isErr]
  · by_cases h2 : path = ""
    · subst h2
      decide
    · by_cases h3 : strStartsWith path "/"
      · simp [format_path, isErr, h1, h2, h3]
      · simp [format_path, isErr, h1, h2, h3]

/-- Claim C4: exactly one binding mode is honored per start_server call;
a unix_socket path takes precedence over a caller-supplied socket handle,
which takes precedence over host/port; when the unix mode is used the
permission bits are applied as a separate chmod step after the bind. -/
theorem c4_binding_precedence (cfg : StartConfig) :
    (bindEvents cfg).countP (fun e => isBindEvent e) = 1 ∧
    (∀ p, cfg.unix_socket = some p →
       bindEvents cfg = [BindEvent.createUnixServer p cfg.backlog,
                         BindEvent.chmod p cfg.unix_socket_perms]) ∧
    (∀ sk, cfg.unix_socket = none → cfg.socket = some sk →
       bindEvents cfg = [BindEvent.createServerSock sk cfg.backlog]) ∧
    (cfg.unix_socket = none → cfg.socket = none →
       bindEvents cfg = [BindEvent.createServerHost cfg.host cfg.port cfg.backlog]) := by
  rcases hu : cfg.unix_socket with _ | p <;> rcases hs : cfg.socket with _ | sk <;>
    simp [bindEvents, hu, hs, isBindEvent, List.countP_cons, List.countP_nil]

/-- Witness for C4 at the three concrete configurations. -/
theorem c4_binding_precedence_witness :
    bindEvents cfgUnix = [BindEvent.createUnixServer "/tmp/u.sock" 1024,
                          BindEvent.chmod "/tmp/u.sock" 384] ∧
    bindEvents cfgSockOnly = [BindEvent.createServerSock 3 1024] ∧
    bindEvents cfgHostOnly = [BindEvent.createServerHost (some "0.0.0.0") 8080 1024] :=
  ⟨(c4_binding_precedence cfgUnix).2.1 "/tmp/u.sock" rfl,
   (c4_binding_precedence cfgSockOnly).2.2.1 3 rfl rfl,
   (c4_binding_precedence cfgHostOnly).2.2.2 rfl rfl⟩

/-- Counterexample to claim C5: supplying unix_socket, socket and host all
at once is not rejected; start_server succeeds without any configuration
error and silently binds the unix socket. -/
theorem c5_counterexample_no_config_error :
    start_server cfgBoth
      = Except.ok ([RegEvent.addWsgiRoute "*" "/\x7bpath_info:.*\x7d"],
                   [BindEvent.createUnixServer "/tmp/server.sock" 1024,
                    BindEvent.chmod "/tmp/server.sock" 384]) := rfl

/-- Claim C5 amended: supplying more than one of the mutually-exclusive
binding options is not detected as a configuration error: whenever the
route/static/script configuration is well formed, start_server succeeds
regardless of how many binding options are set, and the precedence
unix_socket over socket over host/port silently selects one mode. -/
theorem c5_amended_no_binding_validation (cfg : StartConfig) (regs : List RegEvent)
    (h : registerAll cfg.routes cfg.static cfg.on_finish cfg.script_name = Except.ok regs) :
    start_server cfg = Except.ok (regs, bindEvents cfg) ∧
    (∀ p sk, cfg.unix_socket = some p → cfg.socket = some sk →
       bindEvents cfg = [BindEvent.createUnixServer p cfg.backlog,
                         BindEvent.chmod p cfg.unix_socket_perms]) := by
  constructor
  · simp [start_server, h]
  · intro p sk hp hs
    simp [bindEvents, hp]

/-- Witness for the amended C5 at the all-three-options configuration. -/
theorem c5_amended_witness :
    start_server cfgBoth
      = Except.ok ([RegEvent.addWsgiRoute "*" "/\x7bpath_info:.*\x7d"], bindEvents cfgBoth) ∧
    bindEvents cfgBoth = [BindEvent.createUnixServer "/tmp/server.sock" 1024,
                          BindEvent.chmod "/tmp/server.sock" 384] := by
  have h := c5_amended_no_binding_validation cfgBoth
    [RegEvent.addWsgiRoute "*" "/\x7bpath_info:.*\x7d"] rfl
  exact ⟨h.1, h.2 "/tmp/server.sock" 3 rfl rfl⟩

/-- Claim C1: the first close() performs, in order, the session/connector
release (when created), the unlink of every unix socket path, the listener
close, and then schedules the background shutdown task; the scheduled task
awaits the listener finishing closing, then runs every registered shutdown
hook in registration order, then drains in-flight connections bounded by
the configured shutdown timeout, then runs final application cleanup. -/
theorem c1_close_shutdown_order (s : Server)
    (hfresh : s.close_future = none)
    (hws : s.env.server_wait_closed = Except.ok ())
    (hhooks : ∀ r ∈ s.env.hooks, r = Except.ok ())
    (hfc : s.env.finish_connections = Except.ok ())
    (hcl : s.env.cleanup = Except.ok ()) :
    (Server.close s).2
      = (if s.session then [Event.sessionClose] else [])
        ++ (if s.connector.isSome then [Event.connectorClose] else [])
        ++ unlinkEvents s.sockets ++ [Event.serverClose, Event.createTask]
    ∧ (Server.close s).1.close_future
      = some (Step.serverWaitClosed ::
                (List.range s.env.hooks.length).map Step.hook
                ++ [Step.finishConnections s.shutdown_timeout, Step.cleanup],
              Except.ok ()) := by
  constructor
  · simp [Server.close, hfresh]
  · simp [Server.close, hfresh, waitClosedTask, hws, hfc, hcl,
          runHooks_all_ok_zero s.env.hooks hhooks]

/-- Witness for C1 at a concrete unix-socket server with two hooks. -/
theorem c1_close_shutdown_order_witness :
    (Server.close unixServer).2
      = [Event.sessionClose, Event.connectorClose, Event.unlink "/tmp/server.sock",
         Event.serverClose, Event.createTask]
    ∧ (Server.close unixServer).1.close_future
      = some ([Step.serverWaitClosed, Step.hook 0, Step.hook 1,
               Step.finishConnections 60, Step.cleanup], Except.ok ()) := by
  have h := c1_close_shutdown_order unixServer rfl rfl (by decide) rfl rfl
  exact ⟨by rw [h.1]; rfl, by rw [h.2]; rfl⟩

theorem close_of_closed (s : Server) (f : List Step × Except String Unit)
    (h : s.close_future = some f) : Server.close s = (s, []) := by
  simp [Server.close, h]

theorem closeN_of_closed (n : Nat) (s : Server) (f : List Step × Except String Unit)
    (h : s.close_future = some f) : closeN n s = (s, []) := by
  induction n with
  | zero => rfl
  | succ n ih => simp [closeN, close_of_closed s f h, ih]

theorem close_future_isSome_after (s : Server) :
    ∃ f, (Server.close s).1.close_future = some f := by
  cases h : s.close_future with
  | some f => exact ⟨f, by simp [Server.close, h]⟩
  | none => exact ⟨waitClosedTask s.shutdown_timeout s.env, by simp [Server.close, h]⟩

theorem count_unlinkEvents_eq_zero (sockets : List SockAddr) (e : Event)
    (h : ∀ p, e ≠ Event.unlink p) : (unlinkEvents sockets).count e = 0 := by
  rw [List.count_eq_zero]
  intro hmem
  rw [unlinkEvents, List.mem_filterMap] at hmem
  obtain ⟨a, _, ha⟩ := hmem
  by_cases hc : (parse_sockname a).1 = "unix"
  · rw [if_pos hc] at ha
    exact h (parse_sockname a).2 (Option.some.inj ha).symm
  · rw [if_neg hc] at ha
    exact Option.noConfusion ha

/-- Claim C2: close() is idempotent: for every server, calling close() any
number N of times, N at least 1, equals calling it once; starting from a
not-yet-closed server the combined side effects contain exactly one
background-task creation and exactly one listener close. -/
theorem c2_close_idempotent (s : Server) (n : Nat) (h : 1 ≤ n) :
    closeN n s = Server.close s ∧
    (s.close_future = none →
       (closeN n s).2.count Event.createTask = 1 ∧
       (closeN n s).2.count Event.serverClose = 1) := by
  obtain ⟨m, rfl⟩ : ∃ m, n = m + 1 := ⟨n - 1, by omega⟩
  obtain ⟨f, hf⟩ := close_future_isSome_after s
  have hmain : closeN (m + 1) s = Server.close s := by
    simp [closeN, closeN_of_closed m (Server.close s).1 f hf]
  refine ⟨hmain, fun hnone => ?_⟩
  rw [hmain]
  have hu1 : (unlinkEvents s.sockets).count Event.createTask = 0 :=
    count_unlinkEvents_eq_zero s.sockets Event.createTask (by intro p hc; cases hc)
  have hu2 : (unlinkEvents s.sockets).count Event.serverClose = 0 :=
    count_unlinkEvents_eq_zero s.sockets Event.serverClose (by intro p hc; cases hc)
  cases hS : s.session <;> cases hC : s.connector <;>
    simp [Server.close, hnone, hS, hC, List.count_append, List.count_cons, hu1, hu2]

/-- Witness for C2: three close() calls on a fresh unix-socket server. -/
theorem c2_close_idempotent_witness :
    closeN 3 unixServer = Server.close unixServer ∧
    (closeN 3 unixServer).2.count Event.createTask = 1 ∧
    (closeN 3 unixServer).2.count Event.serverClose = 1 := by
  have h := c2_close_idempotent unixServer 3 (by decide)
  exact ⟨h.1, h.2 rfl⟩

/-- Counterexample to claim C3: on a freshly started server, before
close() has run, wait_closed() does not block until the shutdown task
exists: _close_future is still None and awaiting asyncio.shield(None)
fails with a TypeError. -/
theorem c3_counterexample_wait_before_close :
    Server.wait_closed freshServer = WaitResult.typeErrorNoneFuture ∧
    freshServer.close_future = none :=
  ⟨rfl, rfl⟩

/-- Claim C3 amended: every caller of wait_closed() after close() observes
the same terminal outcome of the single stored background shutdown task,
without re-running teardown; but a caller of wait_closed() before close()
fails immediately (shield on the still-None future raises TypeError)
instead of blocking until the task exists. -/
theorem c3_amended_wait_closed (s : Server) :
    (s.close_future = none → Server.wait_closed s = WaitResult.typeErrorNoneFuture) ∧
    (∀ f, s.close_future = some f → Server.wait_closed s = WaitResult.outcome f.2) ∧
    (s.close_future = none →
       Server.wait_closed (Server.close s).1
         = WaitResult.outcome (waitClosedTask s.shutdown_timeout s.env).2) := by
  refine ⟨fun h => by simp [Server.wait_closed, h],
          fun f h => by simp [Server.wait_closed, h],
          fun h => by simp [Server.close, h, Server.wait_closed]⟩

/-- Witness for the amended C3 at a concrete fresh server. -/
theorem c3_amended_wait_closed_witness :
    Server.wait_closed freshServer = WaitResult.typeErrorNoneFuture ∧
    Server.wait_closed (Server.close freshServer).1 = WaitResult.outcome (Except.ok ()) := by
  have h := c3_amended_wait_closed freshServer
  exact ⟨h.1 rfl, by rw [h.2.2 rfl]; rfl⟩

/-- Claim C9: when a registered shutdown hook fails during the background
shutdown task (after the hooks before it succeeded), the task stops with
that failure: the connection drain and the final cleanup never run, and
every caller of wait_closed() observes that same failure. -/
theorem c9_hook_failure_aborts (env : ShutdownEnv) (timeout : Nat)
    (pre rest : List (Except String Unit)) (e : String)
    (hws : env.server_wait_closed = Except.ok ())
    (hsplit : env.hooks = pre ++ Except.error e :: rest)
    (hpre : ∀ r ∈ pre, r = Except.ok ()) :
    (waitClosedTask timeout env).2 = Except.error e ∧
    (∀ t, Step.finishConnections t ∉ (waitClosedTask timeout env).1) ∧
    Step.cleanup ∉ (waitClosedTask timeout env).1 ∧
    (∀ s : Server, s.close_future = some (waitClosedTask timeout env) →
       Server.wait_closed s = WaitResult.outcome (Except.error e)) := by
  have hrun : runHooks 0 env.hooks
      = ((List.range pre.length).map (fun j => Step.hook (0 + j)), Except.error e) := by
    rw [hsplit]
    exact runHooks_fail pre rest e hpre 0
  have htask : waitClosedTask timeout env
      = (Step.serverWaitClosed :: (List.range pre.length).map (fun j => Step.hook (0 + j)),
         Except.error e) := by
    simp [waitClosedTask, hws, hrun]
  refine ⟨by rw [htask], ?_, ?_, ?_⟩
  · intro t
    rw [htask]
    simp
  · rw [htask]
    simp
  · intro s hs
    simp [Server.wait_closed, hs, htask]

/-- Witness for C9: one succeeding hook followed by one failing hook. -/
theorem c9_hook_failure_aborts_witness :
    (waitClosedTask 60 envBoom).2 = Except.error "boom" ∧
    Step.cleanup ∉ (waitClosedTask 60 envBoom).1 ∧
    Server.wait_closed closedBoomServer = WaitResult.outcome (Except.error "boom") := by
  have h := c9_hook_failure_aborts envBoom 60 [Except.ok ()] [] "boom" rfl rfl (by decide)
  exact ⟨h.1, h.2.2.1, h.2.2.2 closedBoomServer rfl⟩

/-- Claim C7: the dispatch table is built with all explicit routes and
static mounts registered in input order first, and the WSGI bridge
registered last, on the wildcard pattern formed from the normalized
script_name followed by the catch-all path segment, for method "*"
(every HTTP method). -/
theorem c7_wsgi_bridge_registered_last (routes : List (String × String × Nat))
    (static : List StaticItem) (on_finish : List Nat) (script_name : String)
    (se : List RegEvent) (sn : String)
    (hs : staticAll static = Except.ok se)
    (hn : format_path script_name = Except.ok sn) :
    registerAll routes static on_finish script_name
      = Except.ok (routes.map (fun r => RegEvent.addRoute r.1 r.2.1 r.2.2)
          ++ se ++ on_finish.map RegEvent.onShutdownAppend
          ++ [RegEvent.addWsgiRoute "*" (sn ++ "\x7bpath_info:.*\x7d")]) ∧
    (routes.map (fun r => RegEvent.addRoute r.1 r.2.1 r.2.2)
          ++ se ++ on_finish.map RegEvent.onShutdownAppend
          ++ [RegEvent.addWsgiRoute "*" (sn ++ "\x7bpath_info:.*\x7d")]).getLast?
      = some (RegEvent.addWsgiRoute "*" (sn ++ "\x7bpath_info:.*\x7d")) ∧
    (routes.map (fun r => RegEvent.addRoute r.1 r.2.1 r.2.2)
          ++ se ++ on_finish.map RegEvent.onShutdownAppend
          ++ [RegEvent.addWsgiRoute "*" (sn ++ "\x7bpath_info:.*\x7d")]).take routes.length
      = routes.map (fun r => RegEvent.addRoute r.1 r.2.1 r.2.2) := by
  refine ⟨by simp [registerAll, hs, hn], ?_, ?_⟩
  · rw [List.getLast?_concat]
  · rw [List.append_assoc, List.append_assoc]
    have h := List.take_left (routes.map (fun r => RegEvent.addRoute r.1 r.2.1 r.2.2))
      (se ++ (on_finish.map RegEvent.onShutdownAppend
        ++ [RegEvent.addWsgiRoute "*" (sn ++ "\x7bpath_info:.*\x7d")]))
    rw [List.length_map] at h
    exact h

/-- Witness for C7: one explicit route, one static mount, one shutdown
hook, empty script_name. -/
theorem c7_wsgi_bridge_registered_last_witness :
    registerAll [("GET", "/health", 0)] [StaticItem.pair "/st" "dir"] [7] ""
      = Except.ok [RegEvent.addRoute "GET" "/health" 0,
                   RegEvent.addStaticResource "/st/\x7bfilename:.*\x7d" "/st/" "dir",
                   RegEvent.onShutdownAppend 7,
                   RegEvent.addWsgiRoute "*" "/\x7bpath_info:.*\x7d"] ∧
    [RegEvent.addRoute "GET" "/health" 0,
     RegEvent.addStaticResource "/st/\x7bfilename:.*\x7d" "/st/" "dir",
     RegEvent.onShutdownAppend 7,
     RegEvent.addWsgiRoute "*" "/\x7bpath_info:.*\x7d"].getLast?
      = some (RegEvent.addWsgiRoute "*" "/\x7bpath_info:.*\x7d") := by
  have h := c7_wsgi_bridge_registered_last [("GET", "/health", 0)]
    [StaticItem.pair "/st" "dir"] [7] ""
    [RegEvent.addStaticResource "/st/\x7bfilename:.*\x7d" "/st/" "dir"] "/" rfl rfl
  exact ⟨h.1.trans rfl, h.2.1.trans rfl⟩

/-- Claim C8: the embedded client lazily creates its connector and session
exactly once and reuses them: the first request() on a server whose client
is unused stores a connector chosen by the parsed kind of the first bound
socket (a unix connector on the socket path exactly when the kind is
"unix", a TCP connector otherwise) and marks the session created; a second
request() leaves both unchanged; every request URI is
"http://" ++ host ++ ":" ++ port ++ path from the parsed first socket. -/
theorem c8_request_lazy_connector (s : Server) (m p m2 p2 : String)
    (sock0 : SockAddr) (rest : List SockAddr)
    (hs : s.sockets = sock0 :: rest) (hc : s.connector = none) :
    Server.request s m p
      = some ({ s with
                  connector := some (if (parse_sockname sock0).1 = "unix" then
                      Connector.unixConnector (parse_sockname sock0).2
                    else Connector.tcpConnector),
                  session := true },
              (if (parse_sockname sock0).1 = "unix" then
                  Connector.unixConnector (parse_sockname sock0).2
                else Connector.tcpConnector),
              "http://" ++ (parse_sockname sock0).1 ++ ":" ++ (parse_sockname sock0).2 ++ p) ∧
    Server.request
        { s with
            connector := some (if (parse_sockname sock0).1 = "unix" then
                Connector.unixConnector (parse_sockname sock0).2
              else Connector.tcpConnector),
            session := true } m2 p2
      = some ({ s with
                  connector := some (if (parse_sockname sock0).1 = "unix" then
                      Connector.unixConnector (parse_sockname sock0).2
                    else Connector.tcpConnector),
                  session := true },
              (if (parse_sockname sock0).1 = "unix" then
                  Connector.unixConnector (parse_sockname sock0).2
                else Connector.tcpConnector),
              "http://" ++ (parse_sockname sock0).1 ++ ":" ++ (parse_sockname sock0).2 ++ p2) := by
  constructor
  · simp [Server.request, hs, hc]
  · simp [Server.request, hs]

/-- Witness for C8 at a concrete unix-socket server: two requests share
one unix connector and one session, with the synthetic unix URI. -/
theorem c8_request_lazy_connector_witness :
    Server.request clientServer "GET" "/health"
      = some ({ clientServer with
                  connector := some (Connector.unixConnector "/tmp/server.sock"),
                  session := true },
              Connector.unixConnector "/tmp/server.sock",
              "http://unix:/tmp/server.sock/health") ∧
    Server.request
        { clientServer with
            connector := some (Connector.unixConnector "/tmp/server.sock"),
            session := true } "GET" "/other"
      = some ({ clientServer with
                  connector := some (Connector.unixConnector "/tmp/server.sock"),
                  session := true },
              Connector.unixConnector "/tmp/server.sock",
              "http://unix:/tmp/server.sock/other") := by
  have h := c8_request_lazy_connector clientServer "GET" "/health" "GET" "/other"
    (SockAddr.unix "/tmp/server.sock") [] rfl rfl
  exact ⟨h.1.trans rfl, h.2.trans rfl⟩
